import Mathlib

set_option maxRecDepth 100000

namespace Autoheal

/-- Python strings are modelled as lists of characters. -/
abbrev PyStr := List Char

/-- Coerce a Lean string literal to the Python-string model. -/
def pystr (s : String) : PyStr := s.data

/-- Characters stripped by Python `str.strip()` (ASCII whitespace). -/
def isPySpace (c : Char) : Bool :=
  c = ' ' || c = '\t' || c = '\n' || c = '\r' || c = '\x0b' || c = '\x0c'

/-- Models Python `str.strip()`: remove leading and trailing whitespace. -/
def pyStrip (s : PyStr) : PyStr :=
  ((s.dropWhile isPySpace).reverse.dropWhile isPySpace).reverse

/-- Fuelled worker for `pyReplace`; the fuel starts at the string length, and each
step consumes at least one character, so the fuel never runs out early. -/
def pyReplaceAux (pat rep : PyStr) : Nat → PyStr → PyStr
  | 0, l => l
  | _ + 1, [] => []
  | fuel + 1, c :: rest =>
    if pat ≠ [] ∧ pat.isPrefixOf (c :: rest) then
      rep ++ pyReplaceAux pat rep fuel ((c :: rest).drop pat.length)
    else
      c :: pyReplaceAux pat rep fuel rest

/-- Models Python `s.replace(pat, rep)` for non-empty `pat`: replace all
non-overlapping occurrences, left to right. -/
def pyReplace (s pat rep : PyStr) : PyStr := pyReplaceAux pat rep s.length s

/-- Models the Python substring test `pat in s`. -/
def pyContains (s pat : PyStr) : Bool :=
  match s with
  | [] => pat.isPrefixOf ([] : PyStr)
  | _ :: rest => pat.isPrefixOf s || pyContains rest pat

/-- Worker for `pySplitlines`: split on the newline character. -/
def splitOnNLAux : PyStr → PyStr → List PyStr
  | [], acc => [acc.reverse]
  | c :: rest, acc =>
    if c = '\n' then acc.reverse :: splitOnNLAux rest []
    else splitOnNLAux rest (c :: acc)

/-- Models Python `str.splitlines()` on text whose line breaks are `\n`
(the only case arising here: it is applied to stripped tool output). -/
def pySplitlines (s : PyStr) : List PyStr :=
  match s with
  | [] => []
  | l => splitOnNLAux l []

/-- Models Python `a or b` for strings: `a` when truthy (non-empty), else `b`. -/
def pyOr (a b : PyStr) : PyStr := if a = [] then b else a

/-- Outcome of invoking an external analyzer process (flake8 or mypy) with
`subprocess.check_output`: either the process terminated with some exit status and
combined stdout+stderr output, or the invocation raised an exception other than
`CalledProcessError` (for example `FileNotFoundError` when the tool binary is missing). -/
inductive AnalyzerOutcome
  | exit (status : Nat) (output : PyStr)
  | exn
deriving DecidableEq

/-- Errors that propagate out of a stage and abort the run. -/
inductive RunError
  | analyzerException
  | jsonParseError
deriving DecidableEq

/-- The JSON object that `json.loads` produces from the verdict reply in `_call_llm`.
Each field is `none` when the corresponding key is absent from the object. -/
structure VerdictRecord where
  verdict : Option PyStr
  reason : Option PyStr
  suggestions : Option PyStr
deriving DecidableEq

/-- Result of `_run_pytest`: either the JSON content loaded from the report file
(kept abstract as its raw text), or a literal string-valued dict such as the
error marker built when no report file exists. -/
inductive PyReport
  | fromFile (raw : PyStr)
  | dict (entries : List (PyStr × PyStr))
deriving DecidableEq

/-- The error-marker record returned by `_run_pytest` when no report file was produced. -/
def noReportMarker : PyReport :=
  PyReport.dict [(pystr "error", pystr "No report generated")]

/-- The shared LangGraph state dict, with one optional field per stage-owned key;
`none` means the key is not yet present in the dict. -/
structure WorkflowState where
  code : PyStr
  static_analysis : Option (List (String × List PyStr))
  llm_verdict : Option VerdictRecord
  test_code : Option PyStr
  pytest_report : Option PyReport
  fixed_code : Option PyStr
deriving DecidableEq

/-- The initial state built by `evaluate_code_from_file`: only `code` is present. -/
def initialState (code : PyStr) : WorkflowState :=
  { code := code
    static_analysis := none
    llm_verdict := none
    test_code := none
    pytest_report := none
    fixed_code := none }

/-- Models `state.get("llm_verdict", \x7b\x7d).get("verdict", "")` in `generate_fix_node`. -/
def dictGetVerdict (r : Option VerdictRecord) : PyStr :=
  match r with
  | none => []
  | some v => v.verdict.getD []

/-- Number of requests each capability-using stage issued to the evaluation service. -/
structure Counts where
  verdictCalls : Nat
  testCalls : Nat
  fixCalls : Nat
deriving DecidableEq

/-- Deterministic stand-ins for the external collaborators of one run: the analyzer
processes, the evaluation capability's replies (by stage and, for test synthesis,
by request index), the `json.loads` parse of the verdict reply (`none` models a
`JSONDecodeError`), the test runner's exit status, and the report file's content
(`none` when no report file was produced). -/
structure Stub where
  analyzer : String → AnalyzerOutcome
  verdictReply : PyStr
  parseJson : PyStr → Option VerdictRecord
  testReplies : Nat → PyStr
  fixReply : PyStr
  runnerExitZero : Bool
  reportFile : Option PyStr

/-- Embedding of one iteration of the tool loop in `_run_static_checks`:
`subprocess.check_output` returns the output on exit status 0 (then
`out.strip().splitlines() if out.strip() else []`), raises `CalledProcessError` on a
non-zero status (caught: `e.output.strip().splitlines()`), and any other exception
propagates. -/
def checkTool (analyzer : String → AnalyzerOutcome) (tool : String) :
    Except RunError (List PyStr) :=
  match analyzer tool with
  | AnalyzerOutcome.exit 0 out =>
    Except.ok (if pyStrip out ≠ [] then pySplitlines (pyStrip out) else [])
  | AnalyzerOutcome.exit (_ + 1) out =>
    Except.ok (pySplitlines (pyStrip out))
  | AnalyzerOutcome.exn => Except.error RunError.analyzerException

/-- Embedding of `_run_static_checks`: run flake8 then mypy, collecting the findings
dict in insertion order. -/
def runStaticChecks (analyzer : String → AnalyzerOutcome) :
    Except RunError (List (String × List PyStr)) := do
  let flake ← checkTool analyzer "flake8"
  let my ← checkTool analyzer "mypy"
  return [("flake8", flake), ("mypy", my)]

/-- Result of `run_static_checks_node` together with whether the `delete=False`
temporary file was removed before the node returned or propagated. -/
structure StaticNodeResult where
  result : Except RunError WorkflowState
  tempFileRemoved : Bool

/-- Embedding of `run_static_checks_node`: the code is written to a `delete=False`
temporary file, `_run_static_checks` runs on it, and only then does `os.remove` run;
there is no try/finally, so when `_run_static_checks` raises, the exception
propagates before the `os.remove` line is reached. -/
def runStaticChecksNode (analyzer : String → AnalyzerOutcome) (s : WorkflowState) :
    StaticNodeResult :=
  match runStaticChecks analyzer with
  | Except.ok findings =>
    { result := Except.ok { s with static_analysis := some findings }
      tempFileRemoved := true }
  | Except.error e =>
    { result := Except.error e
      tempFileRemoved := false }

/-- Embedding of `_call_llm`: one request to the capability, whose reply content is
parsed with `json.loads`; a parse failure raises and propagates. -/
def callLLM (parse : PyStr → Option VerdictRecord) (reply : PyStr) :
    Except RunError VerdictRecord :=
  match parse reply with
  | some v => Except.ok v
  | none => Except.error RunError.jsonParseError

/-- Embedding of `call_llm_node`: store the parsed verdict as `llm_verdict`. -/
def callLLMNode (parse : PyStr → Option VerdictRecord) (reply : PyStr)
    (s : WorkflowState) : Except RunError WorkflowState :=
  (callLLM parse reply).map fun v => { s with llm_verdict := some v }

/-- Fence cleaning shared by `_generate_tests` and `generate_fix_node`:
`raw.replace("```python", "").replace("```", "").strip()`. -/
def cleanReply (raw : PyStr) : PyStr :=
  pyStrip (pyReplace (pyReplace raw (pystr "```python") []) (pystr "```") [])

/-- The sentinel comment `_generate_tests` substitutes when the final cleaned
reply is empty. -/
def sentinelTests : PyStr := pystr "# LLM did not return any tests\n"

/-- Embedding of `_generate_tests`: clean the first reply; when it has no
`assert` substring, issue exactly one more request and use its cleaned text;
an empty final text falls back to the sentinel. Returns the test code and the
number of capability requests issued. -/
def generateTests (replies : Nat → PyStr) : PyStr × Nat :=
  if pyContains (cleanReply (replies 0)) (pystr "assert") then
    (pyOr (cleanReply (replies 0)) sentinelTests, 1)
  else
    (pyOr (cleanReply (replies 1)) sentinelTests, 2)

/-- The reply whose cleaned text `_generate_tests` finally uses: the first when it
contains the assertion marker, otherwise the second. -/
def finalReply (replies : Nat → PyStr) : PyStr :=
  if pyContains (cleanReply (replies 0)) (pystr "assert") then replies 0 else replies 1

/-- Embedding of `generate_tests_node`: store the synthesized tests as `test_code`. -/
def generateTestsNode (replies : Nat → PyStr) (s : WorkflowState) :
    WorkflowState × Nat :=
  ({ s with test_code := some (generateTests replies).1 }, (generateTests replies).2)

/-- Embedding of `_run_pytest`: the runner's exit status is absorbed by the
try/except-pass; then the report file is loaded when it exists, and otherwise the
error-marker dict is returned. -/
def runPytest (runnerExitZero : Bool) (reportFile : Option PyStr) : PyReport :=
  match runnerExitZero, reportFile with
  | _, some raw => PyReport.fromFile raw
  | _, none => noReportMarker

/-- Embedding of `run_pytest_node`: store the report as `pytest_report`. -/
def runPytestNode (runnerExitZero : Bool) (reportFile : Option PyStr)
    (s : WorkflowState) : WorkflowState :=
  { s with pytest_report := some (runPytest runnerExitZero reportFile) }

/-- Embedding of `generate_fix_node`: when the verdict string is not exactly
`"fail"`, set `fixed_code` to the empty string and issue no request; otherwise
issue one request and store its fence-cleaned reply. Returns the new state and
the number of capability requests issued. -/
def generateFixNode (fixReply : PyStr) (s : WorkflowState) : WorkflowState × Nat :=
  if dictGetVerdict s.llm_verdict ≠ pystr "fail" then
    ({ s with fixed_code := some (pystr "") }, 0)
  else
    ({ s with fixed_code := some (cleanReply fixReply) }, 1)

/-- Embedding of the compiled LangGraph pipeline on the initial state for `code`:
StaticCheck → LLMEval → TestGen → TestRun → FixCode, where an uncaught exception in
a stage aborts the rest of the run. Returns the final state (or the propagated
error) together with the per-stage capability request counts; a verdict request is
counted even when parsing its reply fails, since the request precedes the parse. -/
def runPipeline (stub : Stub) (code : PyStr) :
    Except RunError WorkflowState × Counts :=
  match (runStaticChecksNode stub.analyzer (initialState code)).result with
  | Except.error e => (Except.error e, ⟨0, 0, 0⟩)
  | Except.ok s1 =>
    match callLLMNode stub.parseJson stub.verdictReply s1 with
    | Except.error e => (Except.error e, ⟨1, 0, 0⟩)
    | Except.ok s2 =>
      (Except.ok (generateFixNode stub.fixReply
          (runPytestNode stub.runnerExitZero stub.reportFile
            (generateTestsNode stub.testReplies s2).1)).1,
       ⟨1, (generateTestsNode stub.testReplies s2).2,
        (generateFixNode stub.fixReply
          (runPytestNode stub.runnerExitZero stub.reportFile
            (generateTestsNode stub.testReplies s2).1)).2⟩)

/-- Whether a run reached the terminal state rather than aborting on an error. -/
def runCompleted (r : Except RunError WorkflowState) : Bool :=
  match r with
  | Except.ok _ => true
  | Except.error _ => false

/-- The final state of a completed run (dummy fallback on an aborted run). -/
def okState (r : Except RunError WorkflowState) : WorkflowState :=
  match r with
  | Except.ok s => s
  | Except.error _ => initialState []

/-- The state of the shared dict after the StaticCheck stage of a successful run,
given the two findings lists `f` and `m`. -/
def postStaticState (code : PyStr) (f m : List PyStr) : WorkflowState :=
  { initialState code with static_analysis := some [("flake8", f), ("mypy", m)] }

/-- The state of the shared dict after the LLMEval stage of a successful run. -/
def postVerdictState (code : PyStr) (f m : List PyStr) (v : VerdictRecord) :
    WorkflowState :=
  { postStaticState code f m with llm_verdict := some v }

/-- The state of the shared dict right before the FixCode stage of a successful run,
given the parsed verdict `v` and the two findings lists `f` and `m`. -/
def preFixState (stub : Stub) (code : PyStr) (v : VerdictRecord)
    (f m : List PyStr) : WorkflowState :=
  { code := code
    static_analysis := some [("flake8", f), ("mypy", m)]
    llm_verdict := some v
    test_code := some (generateTests stub.testReplies).1
    pytest_report := some (runPytest stub.runnerExitZero stub.reportFile)
    fixed_code := none }

/-- Stub for the C1 counterexample: the verdict parses to `"fail"` and the fix
request's reply is the empty string, which cleans to the empty string. -/
def c1Stub : Stub :=
  { analyzer := fun _ => AnalyzerOutcome.exit 0 []
    verdictReply := pystr "stub-json"
    parseJson := fun _ => some ⟨some (pystr "fail"), none, none⟩
    testReplies := fun _ => pystr "assert True"
    fixReply := []
    runnerExitZero := true
    reportFile := none }

/-- Stub for the C1 witness: the verdict parses to `"pass"`. -/
def c1wStub : Stub :=
  { analyzer := fun _ => AnalyzerOutcome.exit 0 []
    verdictReply := pystr "stub-json"
    parseJson := fun _ => some ⟨some (pystr "pass"), none, none⟩
    testReplies := fun _ => pystr "assert True"
    fixReply := pystr "def f(): return 1"
    runnerExitZero := true
    reportFile := none }

/-- The final state of the C1 witness run. -/
def c1wState : WorkflowState := okState (runPipeline c1wStub (pystr "x")).1

/-- The request counts of the C1 witness run. -/
def c1wCounts : Counts := (runPipeline c1wStub (pystr "x")).2

/-- Capability replies for the C2 witness: prose without an assertion first, then a
fenced three-test block. -/
def c2Replies : Nat → PyStr := fun n =>
  if n = 0 then pystr "Here is an explanation of the code instead of tests."
  else pystr "```python\ndef test_a():\n    assert add(1, 1) == 2\n\ndef test_b():\n    assert add(0, 0) == 0\n\ndef test_c():\n    assert add(2, 2) == 4\n```"

/-- Capability replies for the C3 witness, first branch: the first reply already
contains the assertion marker. -/
def c3RepliesA : Nat → PyStr := fun n =>
  if n = 0 then pystr "```python\ndef test_z():\n    assert f(0) == 1\n```"
  else pystr "unused"

/-- Capability replies for the C3 witness, second branch: no assertion marker in
either reply, and the second is syntactically invalid but non-empty. -/
def c3RepliesB : Nat → PyStr := fun n =>
  if n = 0 then pystr "prose reply" else pystr "still prose, not python"

/-- Analyzer stub for the C4 witness: flake8 exits 1 with one finding line, mypy
exits 0 with empty output. -/
def c4Analyzer : String → AnalyzerOutcome := fun tool =>
  if tool = "flake8" then AnalyzerOutcome.exit 1 (pystr "f.py:1:1: E999 SyntaxError\n")
  else AnalyzerOutcome.exit 0 []

/-- Stub for the C5 witness: the test runner exits non-zero and leaves no report
file behind. -/
def c5Stub : Stub :=
  { analyzer := fun _ => AnalyzerOutcome.exit 0 []
    verdictReply := pystr "stub-json"
    parseJson := fun _ => some ⟨some (pystr "pass"), none, none⟩
    testReplies := fun _ => pystr "assert True"
    fixReply := []
    runnerExitZero := false
    reportFile := none }

/-- The final state of the C5 witness run. -/
def c5State : WorkflowState := okState (runPipeline c5Stub (pystr "x")).1

/-- Capability replies for the C6 witness: both replies are empty strings. -/
def c6Replies : Nat → PyStr := fun _ => []

/-- Stub for the C7 witness: the verdict reply is not valid JSON. -/
def c7Stub : Stub :=
  { analyzer := fun _ => AnalyzerOutcome.exit 0 []
    verdictReply := pystr "oops, not json"
    parseJson := fun _ => none
    testReplies := fun _ => pystr "assert True"
    fixReply := []
    runnerExitZero := true
    reportFile := none }

/-- Analyzer stub for C8: the very first analyzer invocation raises an exception
other than `CalledProcessError` (for example `FileNotFoundError` because the flake8
binary is not installed). -/
def c8Analyzer : String → AnalyzerOutcome := fun _ => AnalyzerOutcome.exn

/-- Stub for the C9 witness: a deterministic, fully successful run. -/
def c9Stub : Stub :=
  { analyzer := fun _ => AnalyzerOutcome.exit 0 (pystr "warn: ok\n")
    verdictReply := pystr "stub-json"
    parseJson := fun _ => some ⟨some (pystr "fail"), some (pystr "bug"), none⟩
    testReplies := fun _ => pystr "```python\nassert g() == 3\n```"
    fixReply := pystr "```python\ndef g(): return 3\n```"
    runnerExitZero := true
    reportFile := some (pystr "report-json-content") }

/-- The final state of the C9 witness run. -/
def c9State : WorkflowState := okState (runPipeline c9Stub (pystr "x")).1

/-- The request counts of the C9 witness run. -/
def c9Counts : Counts := (runPipeline c9Stub (pystr "x")).2

/-- State for the C10 witness: the verdict record carries the string `"Fail"`,
differing from `"fail"` only in case. -/
def c10State : WorkflowState :=
  { initialState (pystr "x") with
    llm_verdict := some ⟨some (pystr "Fail"), none, none⟩ }

/-- Splitting the empty output yields the empty findings list. -/
theorem pySplitlines_nil : pySplitlines [] = [] := rfl

/-- A string containing a non-empty substring is itself non-empty. -/
theorem pyContains_ne_nil (s pat : PyStr) (hpat : pat ≠ [])
    (h : pyContains s pat = true) : s ≠ [] := by
  intro hs
  subst hs
  cases pat with
  | nil => exact hpat rfl
  | cons c cs => simp [pyContains, List.isPrefixOf] at h

/-- When the analyzer process terminates with any exit status, `checkTool` returns
the stripped output split into lines, on both the exit-0 and the caught
`CalledProcessError` paths. -/
theorem checkTool_exit (analyzer : String → AnalyzerOutcome) (tool : String)
    (e : Nat) (o : PyStr) (h : analyzer tool = AnalyzerOutcome.exit e o) :
    checkTool analyzer tool = Except.ok (pySplitlines (pyStrip o)) := by
  unfold checkTool
  rw [h]
  cases e with
  | zero =>
    by_cases hs : pyStrip o = []
    · simp [hs, pySplitlines]
    · simp [hs]
  | succ n => rfl

/-- When both analyzer processes terminate, `_run_static_checks` returns the
two-key findings dict in insertion order. -/
theorem runStaticChecks_exit (analyzer : String → AnalyzerOutcome)
    (e₁ e₂ : Nat) (o₁ o₂ : PyStr)
    (h₁ : analyzer "flake8" = AnalyzerOutcome.exit e₁ o₁)
    (h₂ : analyzer "mypy" = AnalyzerOutcome.exit e₂ o₂) :
    runStaticChecks analyzer =
      Except.ok [("flake8", pySplitlines (pyStrip o₁)),
                 ("mypy", pySplitlines (pyStrip o₂))] := by
  unfold runStaticChecks
  rw [checkTool_exit analyzer "flake8" e₁ o₁ h₁,
      checkTool_exit analyzer "mypy" e₂ o₂ h₂]
  rfl

/-- Fix guard, no-op branch: any verdict string other than exactly `"fail"`. -/
theorem generateFixNode_not_fail (fixReply : PyStr) (s : WorkflowState)
    (h : dictGetVerdict s.llm_verdict ≠ pystr "fail") :
    generateFixNode fixReply s = ({ s with fixed_code := some (pystr "") }, 0) := by
  unfold generateFixNode
  simp [h]

/-- Fix guard, active branch: the verdict string is exactly `"fail"`. -/
theorem generateFixNode_fail (fixReply : PyStr) (s : WorkflowState)
    (h : dictGetVerdict s.llm_verdict = pystr "fail") :
    generateFixNode fixReply s = ({ s with fixed_code := some (cleanReply fixReply) }, 1) := by
  unfold generateFixNode
  simp [h]

/-- The FixCode stage only writes `fixed_code`: all other fields are unchanged. -/
theorem generateFixNode_frame (fixReply : PyStr) (s : WorkflowState) :
    (generateFixNode fixReply s).1.code = s.code ∧
    (generateFixNode fixReply s).1.static_analysis = s.static_analysis ∧
    (generateFixNode fixReply s).1.llm_verdict = s.llm_verdict ∧
    (generateFixNode fixReply s).1.test_code = s.test_code ∧
    (generateFixNode fixReply s).1.pytest_report = s.pytest_report ∧
    (generateFixNode fixReply s).1.fixed_code.isSome = true := by
  unfold generateFixNode
  by_cases h : dictGetVerdict s.llm_verdict = pystr "fail" <;> simp [h]

/-- Without a report file, `_run_pytest` returns the error marker for either
runner exit status. -/
theorem runPytest_none (b : Bool) : runPytest b none = noReportMarker := by
  cases b <;> rfl

/-- C2 (confirmed): when the first cleaned capability reply has no assertion
marker and the second cleans to non-empty text, `_generate_tests` returns the
second reply's cleaned text and issues exactly two requests. -/
theorem test_synth_retry_uses_second_reply (replies : Nat → PyStr)
    (h1 : pyContains (cleanReply (replies 0)) (pystr "assert") = false)
    (h2 : cleanReply (replies 1) ≠ []) :
    generateTests replies = (cleanReply (replies 1), 2) := by
  simp [generateTests, h1, pyOr, h2]

/-- C2 witness: a concrete prose first reply and fenced three-test second reply. -/
theorem test_synth_retry_uses_second_reply_witness :
    generateTests c2Replies = (cleanReply (c2Replies 1), 2) :=
  test_synth_retry_uses_second_reply c2Replies (by decide) (by decide)

/-- C3 (confirmed): `_generate_tests` issues at most two requests; it issues two
exactly when the first cleaned reply lacks the assertion-marker substring; when the
first cleaned reply contains it, exactly one request is issued and its cleaned text
is used; and any non-empty final cleaned reply is accepted as-is, with no further
validation. -/
theorem test_synth_bounded_retry (replies : Nat → PyStr) :
    (generateTests replies).2 ≤ 2 ∧
    ((generateTests replies).2 = 2 ↔
      pyContains (cleanReply (replies 0)) (pystr "assert") = false) ∧
    (pyContains (cleanReply (replies 0)) (pystr "assert") = true →
      generateTests replies = (cleanReply (replies 0), 1)) ∧
    (cleanReply (finalReply replies) ≠ [] →
      (generateTests replies).1 = cleanReply (finalReply replies)) := by
  cases hb : pyContains (cleanReply (replies 0)) (pystr "assert") with
  | true =>
    have hne : cleanReply (replies 0) ≠ [] := pyContains_ne_nil _ _ (by decide) hb
    refine ⟨?_, ?_, ?_, ?_⟩
    · simp [generateTests, hb]
    · simp [generateTests, hb]
    · intro _
      simp [generateTests, hb, pyOr, hne]
    · intro hf
      simp [generateTests, finalReply, hb, pyOr, hne]
  | false =>
    refine ⟨?_, ?_, ?_, ?_⟩
    · simp [generateTests, hb]
    · simp [generateTests, hb]
    · simp [hb]
    · intro hf
      rw [finalReply, hb] at hf
      simp only [Bool.false_eq_true, if_false] at hf
      simp [generateTests, finalReply, hb, pyOr, hf]

/-- C3 witness: a first reply that already contains an assertion (one request,
used as-is), and a run whose final reply is invalid-but-non-empty prose
(accepted as-is). -/
theorem test_synth_bounded_retry_witness :
    generateTests c3RepliesA = (cleanReply (c3RepliesA 0), 1) ∧
    (generateTests c3RepliesB).1 = cleanReply (finalReply c3RepliesB) :=
  ⟨(test_synth_bounded_retry c3RepliesA).2.2.1 (by decide),
   (test_synth_bounded_retry c3RepliesB).2.2.2 (by decide)⟩

/-- C6 (confirmed): when both capability replies clean to the empty string,
`_generate_tests` returns the fixed sentinel failure comment, which is non-empty. -/
theorem test_synth_sentinel_fallback (replies : Nat → PyStr)
    (h0 : cleanReply (replies 0) = []) (h1 : cleanReply (replies 1) = []) :
    generateTests replies = (sentinelTests, 2) ∧ sentinelTests ≠ [] := by
  have hc : pyContains (cleanReply (replies 0)) (pystr "assert") = false := by
    rw [h0]; decide
  exact ⟨by simp [generateTests, hc, h1, pyOr], by decide⟩

/-- C6 witness: both replies are the empty string. -/
theorem test_synth_sentinel_fallback_witness :
    generateTests c6Replies = (sentinelTests, 2) ∧ sentinelTests ≠ [] :=
  test_synth_sentinel_fallback c6Replies (by decide) (by decide)

/-- C4 (confirmed): assuming both analyzer invocations terminate with any exit
status, `static_findings` has exactly the two fixed keys flake8 and mypy, in that
order, each mapped to the per-line split of the invocation's stripped output — a
non-zero exit status still yields an ordinary findings list rather than aborting —
and stripped-empty output maps to the empty list. -/
theorem static_findings_shape (analyzer : String → AnalyzerOutcome)
    (e₁ e₂ : Nat) (o₁ o₂ : PyStr)
    (h₁ : analyzer "flake8" = AnalyzerOutcome.exit e₁ o₁)
    (h₂ : analyzer "mypy" = AnalyzerOutcome.exit e₂ o₂) :
    runStaticChecks analyzer =
      Except.ok [("flake8", pySplitlines (pyStrip o₁)),
                 ("mypy", pySplitlines (pyStrip o₂))] ∧
    (∀ o : PyStr, pyStrip o = [] → pySplitlines (pyStrip o) = []) :=
  ⟨runStaticChecks_exit analyzer e₁ e₂ o₁ o₂ h₁ h₂, fun o ho => by rw [ho]; rfl⟩

/-- C4 witness: flake8 exits 1 with one finding line, mypy exits 0 with empty
output; the run produces both keys and the empty output maps to the empty list. -/
theorem static_findings_shape_witness :
    runStaticChecks c4Analyzer =
      Except.ok [("flake8", pySplitlines (pyStrip (pystr "f.py:1:1: E999 SyntaxError\n"))),
                 ("mypy", pySplitlines (pyStrip []))] ∧
    pySplitlines (pyStrip ([] : PyStr)) = [] :=
  ⟨(static_findings_shape c4Analyzer 1 0 (pystr "f.py:1:1: E999 SyntaxError\n") []
      (by decide) (by decide)).1,
   (static_findings_shape c4Analyzer 1 0 (pystr "f.py:1:1: E999 SyntaxError\n") []
      (by decide) (by decide)).2 [] rfl⟩

/-- C8 (code bug): when an analyzer invocation raises an exception other than
`CalledProcessError` (for example the tool binary is missing), the exception
propagates out of `run_static_checks_node` before the `os.remove` line runs, so the
`delete=False` temporary copy of the submission is NOT removed — there is no
try/finally around `_run_static_checks`, contradicting the guaranteed-cleanup
claim. -/
theorem static_temp_file_leak :
    (runStaticChecksNode c8Analyzer (initialState (pystr "x"))).tempFileRemoved = false ∧
    (runStaticChecksNode c8Analyzer (initialState (pystr "x"))).result =
      Except.error RunError.analyzerException :=
  ⟨rfl, rfl⟩

/-- C10 (confirmed): the fix guard is an exact, case-sensitive comparison with the
lowercase literal; an absent verdict record, a record without a verdict key, and
any other string value (such as capitalized forms) all take the no-op branch:
`fixed_code` becomes the empty string and no capability request is issued. -/
theorem fix_guard_case_sensitive (fixReply : PyStr) (s : WorkflowState)
    (h : s.llm_verdict = none ∨
      (∃ r, s.llm_verdict = some r ∧ r.verdict = none) ∨
      (∃ r val, s.llm_verdict = some r ∧ r.verdict = some val ∧ val ≠ pystr "fail")) :
    generateFixNode fixReply s = ({ s with fixed_code := some (pystr "") }, 0) := by
  apply generateFixNode_not_fail
  rcases h with h | ⟨r, hr, hv⟩ | ⟨r, val, hr, hv, hne⟩
  · rw [h]
    decide
  · rw [hr]
    simp only [dictGetVerdict, hv, Option.getD_none]
    decide
  · rw [hr]
    simpa [dictGetVerdict, hv] using hne

/-- C10 witness: the verdict record carries `"Fail"`, which differs from `"fail"`
only in case, and the stage behaves exactly as on a passing verdict. -/
theorem fix_guard_case_sensitive_witness :
    generateFixNode (pystr "def f(): return 1") c10State =
      ({ c10State with fixed_code := some (pystr "") }, 0) :=
  fix_guard_case_sensitive (pystr "def f(): return 1") c10State
    (Or.inr (Or.inr ⟨⟨some (pystr "Fail"), none, none⟩, pystr "Fail", rfl, rfl, by decide⟩))

/-- Inversion for the StaticCheck node: a normal return extends the input state
with some findings value and touches nothing else. -/
theorem runStaticChecksNode_ok_inv (analyzer : String → AnalyzerOutcome)
    (s0 s1 : WorkflowState)
    (h : (runStaticChecksNode analyzer s0).result = Except.ok s1) :
    ∃ f, s1 = { s0 with static_analysis := some f } := by
  unfold runStaticChecksNode at h
  split at h
  · rename_i f hf
    simp only [Except.ok.injEq] at h
    exact ⟨f, h.symm⟩
  · simp at h

/-- Inversion for the LLMEval node: a normal return means the reply parsed to some
verdict record, which is stored with nothing else touched. -/
theorem callLLMNode_ok_inv (parse : PyStr → Option VerdictRecord) (reply : PyStr)
    (s0 s2 : WorkflowState) (h : callLLMNode parse reply s0 = Except.ok s2) :
    ∃ v, parse reply = some v ∧ s2 = { s0 with llm_verdict := some v } := by
  unfold callLLMNode callLLM at h
  split at h
  · rename_i v hv
    simp only [Except.map, Except.ok.injEq] at h
    exact ⟨v, hv, h.symm⟩
  · simp [Except.map] at h

/-- Inversion for a completed run: the final state is the FixCode stage applied to
the TestRun stage applied to the TestGen stage applied to some post-verdict state
whose later-stage fields are still absent, and the counts are the stages' counts. -/
theorem runPipeline_ok_inv (stub : Stub) (code : PyStr) (s : WorkflowState)
    (c : Counts) (h : runPipeline stub code = (Except.ok s, c)) :
    ∃ s2, s = (generateFixNode stub.fixReply (runPytestNode stub.runnerExitZero
        stub.reportFile (generateTestsNode stub.testReplies s2).1)).1 ∧
      c = ⟨1, (generateTestsNode stub.testReplies s2).2,
           (generateFixNode stub.fixReply (runPytestNode stub.runnerExitZero
             stub.reportFile (generateTestsNode stub.testReplies s2).1)).2⟩ ∧
      s2.code = code ∧ s2.static_analysis.isSome = true ∧
      s2.llm_verdict.isSome = true ∧ s2.test_code = none ∧
      s2.pytest_report = none ∧ s2.fixed_code = none := by
  unfold runPipeline at h
  split at h
  · simp at h
  · rename_i s1 hst
    split at h
    · simp at h
    · rename_i s2 hcl
      simp only [Prod.mk.injEq, Except.ok.injEq] at h
      obtain ⟨hs, hc⟩ := h
      obtain ⟨f, hf⟩ := runStaticChecksNode_ok_inv stub.analyzer (initialState code) s1 hst
      obtain ⟨v, hv, h2⟩ := callLLMNode_ok_inv stub.parseJson stub.verdictReply s1 s2 hcl
      subst hf
      subst h2
      exact ⟨_, hs.symm, hc.symm, rfl, rfl, rfl, rfl, rfl, rfl⟩

/-- C1 counterexample: a completed run in which the stubbed verdict is `"fail"`
and the fix request's reply cleans to the empty string; the run completes with
outcome Fail and yet `fixed_code` is the empty string, refuting the
`fixed_code == ""` iff `outcome != Fail` direction of the claim. -/
theorem fix_gate_iff_counterexample :
    runCompleted (runPipeline c1Stub (pystr "x")).1 = true ∧
    dictGetVerdict (okState (runPipeline c1Stub (pystr "x")).1).llm_verdict =
      pystr "fail" ∧
    (okState (runPipeline c1Stub (pystr "x")).1).fixed_code = some (pystr "") := by
  exact ⟨rfl, by decide, rfl⟩

/-- C1 (amended): in every completed run, if the verdict outcome is not `"fail"`
then `fixed_code` is the empty string and the FixCode stage issues zero capability
requests; if the outcome is `"fail"`, the stage issues exactly one request and
`fixed_code` is its fence-cleaned reply — so on a Fail outcome `fixed_code` is
empty exactly when that reply cleans to empty, which is where the original iff
fails. -/
theorem fix_gate_amended (stub : Stub) (code : PyStr) (s : WorkflowState)
    (c : Counts) (h : runPipeline stub code = (Except.ok s, c)) :
    (dictGetVerdict s.llm_verdict ≠ pystr "fail" →
      s.fixed_code = some (pystr "") ∧ c.fixCalls = 0) ∧
    (dictGetVerdict s.llm_verdict = pystr "fail" →
      s.fixed_code = some (cleanReply stub.fixReply) ∧ c.fixCalls = 1) := by
  obtain ⟨s2, hs, hc, -, -, -, -, -, -⟩ := runPipeline_ok_inv stub code s c h
  subst hs
  subst hc
  by_cases hv : dictGetVerdict (runPytestNode stub.runnerExitZero stub.reportFile
      (generateTestsNode stub.testReplies s2).1).llm_verdict = pystr "fail"
  · rw [generateFixNode_fail stub.fixReply _ hv]
    constructor
    · intro hne
      exact absurd hv hne
    · intro _
      exact ⟨rfl, rfl⟩
  · rw [generateFixNode_not_fail stub.fixReply _ hv]
    constructor
    · intro _
      exact ⟨rfl, rfl⟩
    · intro heq
      exact absurd heq hv

/-- C1 witness for the amended claim: a completed run with a passing stubbed
verdict has empty `fixed_code` and zero fix-stage capability requests. -/
theorem fix_gate_amended_witness :
    c1wState.fixed_code = some (pystr "") ∧ c1wCounts.fixCalls = 0 :=
  (fix_gate_amended c1wStub (pystr "x") c1wState c1wCounts rfl).1 (by decide)

/-- C5 (confirmed): when the test-runner invocation leaves no report file behind —
for either runner exit status, including non-zero — `_run_pytest` returns the
error-marker dict instead of raising, the run completes, and that marker is the
run's `execution_report`. -/
theorem pytest_no_report_absorbed (stub : Stub) (code : PyStr)
    (e₁ e₂ : Nat) (o₁ o₂ : PyStr) (v : VerdictRecord)
    (h₁ : stub.analyzer "flake8" = AnalyzerOutcome.exit e₁ o₁)
    (h₂ : stub.analyzer "mypy" = AnalyzerOutcome.exit e₂ o₂)
    (hp : stub.parseJson stub.verdictReply = some v)
    (hr : stub.reportFile = none) :
    runCompleted (runPipeline stub code).1 = true ∧
    (okState (runPipeline stub code).1).pytest_report = some noReportMarker := by
  unfold runPipeline
  rw [show (runStaticChecksNode stub.analyzer (initialState code)).result =
      Except.ok (postStaticState code (pySplitlines (pyStrip o₁))
        (pySplitlines (pyStrip o₂))) by
    unfold runStaticChecksNode postStaticState
    rw [runStaticChecks_exit stub.analyzer e₁ e₂ o₁ o₂ h₁ h₂]]
  dsimp only
  rw [show callLLMNode stub.parseJson stub.verdictReply
      (postStaticState code (pySplitlines (pyStrip o₁)) (pySplitlines (pyStrip o₂))) =
      Except.ok (postVerdictState code (pySplitlines (pyStrip o₁))
        (pySplitlines (pyStrip o₂)) v) by
    unfold callLLMNode callLLM postVerdictState
    rw [hp]
    rfl]
  refine ⟨rfl, ?_⟩
  show (generateFixNode stub.fixReply (runPytestNode stub.runnerExitZero
      stub.reportFile _)).1.pytest_report = some noReportMarker
  rw [(generateFixNode_frame stub.fixReply _).2.2.2.2.1]
  show some (runPytest stub.runnerExitZero stub.reportFile) = some noReportMarker
  rw [hr, runPytest_none]

/-- C5 witness: a concrete run whose test runner exits non-zero and produces no
report file completes with the error marker as its execution report. -/
theorem pytest_no_report_absorbed_witness :
    runCompleted (runPipeline c5Stub (pystr "x")).1 = true ∧
    (okState (runPipeline c5Stub (pystr "x")).1).pytest_report =
      some noReportMarker :=
  pytest_no_report_absorbed c5Stub (pystr "x") 0 0 [] []
    ⟨some (pystr "pass"), none, none⟩ rfl rfl rfl rfl

/-- C7 (confirmed): when the verdict reply is not valid JSON, the run aborts with
the parse error; the Verdict Service Client issued exactly one capability request
(no retry) and the Test and Fix Synthesizer stages issued none (no recovery). -/
theorem malformed_verdict_fatal (stub : Stub) (code : PyStr)
    (e₁ e₂ : Nat) (o₁ o₂ : PyStr)
    (h₁ : stub.analyzer "flake8" = AnalyzerOutcome.exit e₁ o₁)
    (h₂ : stub.analyzer "mypy" = AnalyzerOutcome.exit e₂ o₂)
    (hp : stub.parseJson stub.verdictReply = none) :
    runPipeline stub code = (Except.error RunError.jsonParseError, ⟨1, 0, 0⟩) := by
  unfold runPipeline
  rw [show (runStaticChecksNode stub.analyzer (initialState code)).result =
      Except.ok (postStaticState code (pySplitlines (pyStrip o₁))
        (pySplitlines (pyStrip o₂))) by
    unfold runStaticChecksNode postStaticState
    rw [runStaticChecks_exit stub.analyzer e₁ e₂ o₁ o₂ h₁ h₂]]
  dsimp only
  rw [show callLLMNode stub.parseJson stub.verdictReply
      (postStaticState code (pySplitlines (pyStrip o₁)) (pySplitlines (pyStrip o₂))) =
      Except.error RunError.jsonParseError by
    unfold callLLMNode callLLM
    rw [hp]
    rfl]

/-- C7 witness: a concrete stub whose verdict reply fails JSON parsing aborts the
run with exactly one verdict request and no downstream requests. -/
theorem malformed_verdict_fatal_witness :
    runPipeline c7Stub (pystr "x") =
      (Except.error RunError.jsonParseError, ⟨1, 0, 0⟩) :=
  malformed_verdict_fatal c7Stub (pystr "x") 0 0 [] [] rfl rfl rfl

/-- C9 (confirmed): every stage writes only its own field — StaticCheck writes
`static_analysis`, LLMEval writes `llm_verdict`, TestGen writes `test_code`,
TestRun writes `pytest_report`, FixCode writes `fixed_code` — and leaves every
other field, including the initial `code`, unchanged; each stage runs exactly once
per run, and a completed run starts with only `code` set and ends with all five
stage-owned fields written. -/
theorem single_writer_per_field (stub : Stub) (code : PyStr) :
    (∀ s s1, (runStaticChecksNode stub.analyzer s).result = Except.ok s1 →
      s1.code = s.code ∧ s1.llm_verdict = s.llm_verdict ∧
      s1.test_code = s.test_code ∧ s1.pytest_report = s.pytest_report ∧
      s1.fixed_code = s.fixed_code ∧ s1.static_analysis.isSome = true) ∧
    (∀ s s1, callLLMNode stub.parseJson stub.verdictReply s = Except.ok s1 →
      s1.code = s.code ∧ s1.static_analysis = s.static_analysis ∧
      s1.test_code = s.test_code ∧ s1.pytest_report = s.pytest_report ∧
      s1.fixed_code = s.fixed_code ∧ s1.llm_verdict.isSome = true) ∧
    (∀ s, (generateTestsNode stub.testReplies s).1.code = s.code ∧
      (generateTestsNode stub.testReplies s).1.static_analysis = s.static_analysis ∧
      (generateTestsNode stub.testReplies s).1.llm_verdict = s.llm_verdict ∧
      (generateTestsNode stub.testReplies s).1.pytest_report = s.pytest_report ∧
      (generateTestsNode stub.testReplies s).1.fixed_code = s.fixed_code ∧
      (generateTestsNode stub.testReplies s).1.test_code.isSome = true) ∧
    (∀ s, (runPytestNode stub.runnerExitZero stub.reportFile s).code = s.code ∧
      (runPytestNode stub.runnerExitZero stub.reportFile s).static_analysis =
        s.static_analysis ∧
      (runPytestNode stub.runnerExitZero stub.reportFile s).llm_verdict =
        s.llm_verdict ∧
      (runPytestNode stub.runnerExitZero stub.reportFile s).test_code =
        s.test_code ∧
      (runPytestNode stub.runnerExitZero stub.reportFile s).fixed_code =
        s.fixed_code ∧
      (runPytestNode stub.runnerExitZero stub.reportFile s).pytest_report.isSome =
        true) ∧
    (∀ s, (generateFixNode stub.fixReply s).1.code = s.code ∧
      (generateFixNode stub.fixReply s).1.static_analysis = s.static_analysis ∧
      (generateFixNode stub.fixReply s).1.llm_verdict = s.llm_verdict ∧
      (generateFixNode stub.fixReply s).1.test_code = s.test_code ∧
      (generateFixNode stub.fixReply s).1.pytest_report = s.pytest_report ∧
      (generateFixNode stub.fixReply s).1.fixed_code.isSome = true) ∧
    (∀ s c, runPipeline stub code = (Except.ok s, c) →
      s.code = code ∧ s.static_analysis.isSome = true ∧
      s.llm_verdict.isSome = true ∧ s.test_code.isSome = true ∧
      s.pytest_report.isSome = true ∧ s.fixed_code.isSome = true) := by
  refine ⟨?_, ?_, ?_, ?_, ?_, ?_⟩
  · intro s s1 h
    obtain ⟨f, hf⟩ := runStaticChecksNode_ok_inv stub.analyzer s s1 h
    subst hf
    exact ⟨rfl, rfl, rfl, rfl, rfl, rfl⟩
  · intro s s1 h
    obtain ⟨v, -, hv⟩ := callLLMNode_ok_inv stub.parseJson stub.verdictReply s s1 h
    subst hv
    exact ⟨rfl, rfl, rfl, rfl, rfl, rfl⟩
  · intro s
    exact ⟨rfl, rfl, rfl, rfl, rfl, rfl⟩
  · intro s
    exact ⟨rfl, rfl, rfl, rfl, rfl, rfl⟩
  · intro s
    exact generateFixNode_frame stub.fixReply s
  · intro s c h
    obtain ⟨s2, hs, -, hcode, hsa, hlv, -, -, -⟩ := runPipeline_ok_inv stub code s c h
    subst hs
    obtain ⟨f1, f2, f3, f4, f5, f6⟩ := generateFixNode_frame stub.fixReply
      (runPytestNode stub.runnerExitZero stub.reportFile
        (generateTestsNode stub.testReplies s2).1)
    refine ⟨?_, ?_, ?_, ?_, ?_, f6⟩
    · rw [f1]
      exact hcode
    · rw [f2]
      exact hsa
    · rw [f3]
      exact hlv
    · rw [f4]
      rfl
    · rw [f5]
      rfl

/-- C9 witness: a concrete deterministic completed run starts from just the code
and ends with every stage-owned field written. -/
theorem single_writer_per_field_witness :
    c9State.code = pystr "x" ∧ c9State.fixed_code.isSome = true := by
  have h := (single_writer_per_field c9Stub (pystr "x")).2.2.2.2.2
    c9State c9Counts rfl
  exact ⟨h.1, h.2.2.2.2.2⟩

end Autoheal

